import Mathlib

/-!
Shallow embedding of the HomobieFrontend-portal routing and upload logic.

The repository contains two App variants with the same authentication logic:
  * `src/client/src/App.tsx` (react-router based), embedded in `RouterApp`;
  * `src/unnamed/part_000` (wouter based), embedded in `WouterApp`;
and a file-upload widget `src/client/src/components/ui/file-uploader.tsx`,
embedded in `FileUploader`.
-/

/-- A session user as seen by the guards: only the `role` attribute is read. -/
structure User where
  role : String
deriving DecidableEq

/-- The observable outcome of rendering a guard / wrapper component:
a loading placeholder (spinner), a redirect to a path (`Navigate` /
`Redirect` element), or the guarded content (children / layout + Outlet). -/
inductive RenderResult where
  | placeholder : RenderResult
  | redirect (path : String) : RenderResult
  | content : RenderResult
deriving DecidableEq

/-- JS string truthiness fallback: models `v || d` where `v : string | undefined`
(the empty string is falsy, so it also falls back to the default). -/
def jsOrDefault (v : Option String) (d : String) : String :=
  match v with
  | some s => if s = "" then d else s
  | none => d

namespace RouterApp

/-- The `routes` object literal inside `getRoleBasedRoute`
(src/client/src/App.tsx lines 124-132), as an association list. -/
def roleRoutes : List (String × String) :=
  [("super_admin", "/admin"),
   ("admin", "/admin"),
   ("builder", "/builder-dashboard"),
   ("telecaller", "/telecaller"),
   ("broker", "/broker"),
   ("ca", "/ca"),
   ("user", "/dashboard")]

/-- `getRoleBasedRoute` from src/client/src/App.tsx lines 123-134:
`return routes[role] || "/dashboard"`. -/
def getRoleBasedRoute (role : String) : String :=
  jsOrDefault (roleRoutes.lookup role) "/dashboard"

/-- Render function of `ProtectedLayout` (src/client/src/App.tsx lines 69-94):
spinner while loading, `Navigate to="/login"` without a user, otherwise the
layout shell with the child routes (`Outlet`). -/
def ProtectedLayout.render (user : Option User) (isLoading : Bool) : RenderResult :=
  if isLoading then .placeholder
  else
    match user with
    | none => .redirect "/login"
    | some _ => .content

end RouterApp

/-- Modelled from the spec: the `RoleBasedRedirect` component
(imported from `@/components/auth/RoleBasedRedirect`, not present under src/)
redirects an authenticated session to its role-appropriate landing path,
delegating to the role router. -/
def RoleBasedRedirect.render (u : User) : RenderResult :=
  .redirect (RouterApp.getRoleBasedRoute u.role)

namespace RouterApp

/-- Render function of `PublicRoute` (src/client/src/App.tsx lines 101-118):
spinner while loading, `RoleBasedRedirect` when a user is logged in,
otherwise the public children. -/
def PublicRoute.render (user : Option User) (isLoading : Bool) : RenderResult :=
  if isLoading then .placeholder
  else
    match user with
    | some u => RoleBasedRedirect.render u
    | none => .content

/-- Render function of `RoleBasedRedirectWrapper`
(src/client/src/App.tsx lines 139-152): spinner while loading, then
`Navigate to=(user ? getRoleBasedRoute(user.role) : "/login")`. -/
def RoleBasedRedirectWrapper.render (user : Option User) (isLoading : Bool) : RenderResult :=
  if isLoading then .placeholder
  else
    .redirect (match user with
               | some u => getRoleBasedRoute u.role
               | none => "/login")

end RouterApp

namespace WouterApp

/-- The `routes` object literal inside `getRoleBasedRoute`
(src/unnamed/part_000 lines 138-146), as an association list. -/
def roleRoutes : List (String × String) :=
  [("super_admin", "/admin"),
   ("admin", "/admin"),
   ("builder", "/builder-dashboard"),
   ("telecaller", "/telecaller"),
   ("broker", "/broker"),
   ("ca", "/ca"),
   ("user", "/dashboard")]

/-- `getRoleBasedRoute` from src/unnamed/part_000 lines 137-148:
`return routes[role] || "/dashboard"`. -/
def getRoleBasedRoute (role : String) : String :=
  jsOrDefault (roleRoutes.lookup role) "/dashboard"

/-- Render function of `ProtectedRoute` (src/unnamed/part_000 lines 79-106):
spinner while loading, `Redirect to="/login"` without a user, otherwise the
layout shell with the children. -/
def ProtectedRoute.render (user : Option User) (isLoading : Bool) : RenderResult :=
  if isLoading then .placeholder
  else
    match user with
    | none => .redirect "/login"
    | some _ => .content

/-- Render function of `PublicRoute` (src/unnamed/part_000 lines 113-130):
spinner while loading, `RoleBasedRedirect` when a user is logged in,
otherwise the public children. -/
def PublicRoute.render (user : Option User) (isLoading : Bool) : RenderResult :=
  if isLoading then .placeholder
  else
    match user with
    | some u => RoleBasedRedirect.render u
    | none => .content

/-- Render function of `RoleBasedRedirectWrapper`
(src/unnamed/part_000 lines 153-156). It reads only `user` from `useAuth`
(no `isLoading`) and unconditionally renders
`Redirect to=(user ? getRoleBasedRoute(user.role) : "/login")`. -/
def RoleBasedRedirectWrapper.render (user : Option User) : RenderResult :=
  .redirect (match user with
             | some u => getRoleBasedRoute u.role
             | none => "/login")

end WouterApp

/-!
Guard effect model. `ProtectedLayout` (App.tsx lines 54-67) and
`ProtectedRoute` (part_000 lines 57-76) declare the same `useEffect` body over
a `useRef` cell `initialRoleRef` (initially `null`):

  if (user) \x7b
    if (!initialRoleRef.current) initialRoleRef.current = user.role;
    if (initialRoleRef.current !== user.role) if (logout) logout();
  \x7d

with dependency array `[user, logout]`. We model one mounted guard instance as
a fold over its renders. Each render carries the session value and a flag
`depsChanged` saying whether React re-runs the effect for that render (the
dependencies are compared by reference, so a fresh `user` object with the
same role still re-runs the effect; on the mount render the effect always
runs, so a trace starting at mount starts with `depsChanged = true`).
-/

/-- One render of a mounted guard instance: the session value returned by
`useAuth` at that render, and whether the effect re-runs (its `[user, logout]`
dependencies changed by reference, or this is the mount render). -/
structure RenderInput where
  user : Option User
  depsChanged : Bool
deriving DecidableEq

/-- JS truthiness of the `initialRoleRef.current : string | null` cell:
`!initialRoleRef.current` is true when the cell is `null` or holds `""`. -/
def refIsFalsy : Option String → Bool
  | none => true
  | some r => r = ""

/-- One execution of the guard's effect body: given the current
`initialRoleRef` cell and the session value, return the updated cell and the
number of `logout()` invocations (0 or 1). -/
def guardEffect (ref : Option String) (user : Option User) : Option String × Nat :=
  match user with
  | none => (ref, 0)
  | some u =>
    let ref2 := if refIsFalsy ref then some u.role else ref
    (ref2, if ref2 = some u.role then 0 else 1)

/-- One render of the guard instance: the effect body runs exactly when the
dependencies changed. -/
def guardStep (ref : Option String) (inp : RenderInput) : Option String × Nat :=
  if inp.depsChanged then guardEffect ref inp.user else (ref, 0)

/-- A sequence of renders of one mounted guard instance: final
`initialRoleRef` cell and total number of `logout()` invocations. -/
def guardRun (ref : Option String) : List RenderInput → Option String × Nat
  | [] => (ref, 0)
  | inp :: rest =>
    let s := guardStep ref inp
    let t := guardRun s.1 rest
    (t.1, s.2 + t.2)

namespace FileUploader

/-- A DOM file handle as held by the widget; only its identity matters here. -/
structure DomFile where
  name : String
deriving DecidableEq

/-- The widget's local state
(src/client/src/components/ui/file-uploader.tsx lines 16-19):
`file`, `isDragging`, `isUploading`, `uploadSuccess`. -/
structure UploaderState where
  file : Option DomFile
  isDragging : Bool
  isUploading : Bool
  uploadSuccess : Bool
deriving DecidableEq

/-- How the injected `onFileUpload(file)` promise settles. -/
inductive UploadOutcome where
  | resolve : UploadOutcome
  | reject : UploadOutcome
deriving DecidableEq

/-- `handleClearFile` (file-uploader.tsx lines 78-84): clears the selection
and the success flag (the file-input DOM value reset is not part of the
modelled state). -/
def handleClearFile (s : UploaderState) : UploaderState :=
  { s with file := none, uploadSuccess := false }

/-- Everything observable about one call of `handleUpload`
(file-uploader.tsx lines 60-76) for a given settling of the injected upload:
how many times `onFileUpload` was invoked, the state while the call is
awaited, the state once the `finally` block has run, whether the `finally`
block scheduled the 3000 ms `handleClearFile` timer, and the state after that
timer fires with no user action in between. -/
structure SubmitResult where
  invocations : Nat
  during : UploaderState
  settled : UploaderState
  timerScheduled : Bool
  afterTimer : UploaderState
deriving DecidableEq

/-- `handleUpload` (file-uploader.tsx lines 60-76): early-return when no file
is selected; otherwise set `isUploading`, clear `uploadSuccess`, await
`onFileUpload(file)` once, set `uploadSuccess` on resolution (log only on
rejection), and in `finally` clear `isUploading` and schedule
`handleClearFile` after 3000 ms. -/
def handleUpload (s : UploaderState) (outcome : UploadOutcome) : SubmitResult :=
  match s.file with
  | none => ⟨0, s, s, false, s⟩
  | some _ =>
    let during := { s with isUploading := true, uploadSuccess := false }
    let settled :=
      match outcome with
      | .resolve => { during with uploadSuccess := true, isUploading := false }
      | .reject => { during with isUploading := false }
    ⟨1, during, settled, true, handleClearFile settled⟩

/-- The submit button's `disabled` prop (file-uploader.tsx line 151):
`!file || isUploading || uploadSuccess`. -/
def buttonDisabled (s : UploaderState) : Bool :=
  s.file.isNone || s.isUploading || s.uploadSuccess

end FileUploader

/-!
Theorems about the embedded program.
-/

/-- Unmapped roles fall through the whole lookup chain to the default. -/
lemma roleRoutes_lookup_eq_none (role : String)
    (h : role ∉ RouterApp.roleRoutes.map Prod.fst) :
    RouterApp.roleRoutes.lookup role = none := by
  simp only [RouterApp.roleRoutes, List.map_cons, List.map_nil, List.mem_cons,
    List.not_mem_nil, or_false, not_or] at h
  obtain ⟨h1, h2, h3, h4, h5, h6, h7⟩ := h
  simp [RouterApp.roleRoutes, List.lookup, beq_eq_false_iff_ne.mpr h1,
    beq_eq_false_iff_ne.mpr h2, beq_eq_false_iff_ne.mpr h3, beq_eq_false_iff_ne.mpr h4,
    beq_eq_false_iff_ne.mpr h5, beq_eq_false_iff_ne.mpr h6, beq_eq_false_iff_ne.mpr h7]

/-- C1: the Role Router `getRoleBasedRoute` is a pure total function: each
documented role maps to its documented landing path, and every other string
(the empty string included) maps to "/dashboard". -/
theorem roleRouter_total_mapping :
    RouterApp.getRoleBasedRoute "super_admin" = "/admin" ∧
    RouterApp.getRoleBasedRoute "admin" = "/admin" ∧
    RouterApp.getRoleBasedRoute "builder" = "/builder-dashboard" ∧
    RouterApp.getRoleBasedRoute "telecaller" = "/telecaller" ∧
    RouterApp.getRoleBasedRoute "broker" = "/broker" ∧
    RouterApp.getRoleBasedRoute "ca" = "/ca" ∧
    RouterApp.getRoleBasedRoute "user" = "/dashboard" ∧
    ∀ role : String, role ∉ RouterApp.roleRoutes.map Prod.fst →
      RouterApp.getRoleBasedRoute role = "/dashboard" := by
  refine ⟨rfl, rfl, rfl, rfl, rfl, rfl, rfl, ?_⟩
  intro role h
  unfold RouterApp.getRoleBasedRoute
  rw [roleRoutes_lookup_eq_none role h]
  rfl

/-- C1 witness: the empty string is unmapped and routes to "/dashboard". -/
theorem roleRouter_total_mapping_witness :
    RouterApp.getRoleBasedRoute "" = "/dashboard" :=
  roleRouter_total_mapping.2.2.2.2.2.2.2 "" (by decide)

/-- C9: both App variants implement the same role-routing function. -/
theorem roleRouter_variants_agree :
    ∀ role : String, RouterApp.getRoleBasedRoute role = WouterApp.getRoleBasedRoute role :=
  fun _ => rfl

/-- C5 counterexample: the wouter variant of `RoleBasedRedirectWrapper` does
not consult the loading flag at all (its render function has no loading
input), so on any render while loading is true with no session yet resolved
it already issues a redirect to "/login" instead of a placeholder — the claim
that the wrapper first waits for loading is false for this variant. -/
theorem wouter_redirectWrapper_ignores_loading :
    WouterApp.RoleBasedRedirectWrapper.render none = RenderResult.redirect "/login" ∧
    WouterApp.RoleBasedRedirectWrapper.render none ≠ RenderResult.placeholder :=
  ⟨rfl, by decide⟩

/-- C5 amended: the react-router variant of `RoleBasedRedirectWrapper` renders
a placeholder (no redirect) while loading and, once loading is false,
redirects to "/login" without a session and to the session role's landing
path with one; the wouter variant issues that same redirect immediately,
without waiting for the loading flag. -/
theorem redirectWrapper_waits_then_redirects :
    ∀ u : Option User,
      RouterApp.RoleBasedRedirectWrapper.render u true = RenderResult.placeholder ∧
      RouterApp.RoleBasedRedirectWrapper.render u false =
        RenderResult.redirect (match u with
                               | some x => RouterApp.getRoleBasedRoute x.role
                               | none => "/login") ∧
      WouterApp.RoleBasedRedirectWrapper.render u =
        RenderResult.redirect (match u with
                               | some x => WouterApp.getRoleBasedRoute x.role
                               | none => "/login") :=
  fun _ => ⟨rfl, rfl, rfl⟩

/-- C6: while the loading flag is true, the Route Guard and the Public Route
Gate of both App variants render only the placeholder, whatever the session
value is — no redirect is issued. -/
theorem loading_renders_placeholder_only :
    ∀ u : Option User,
      RouterApp.ProtectedLayout.render u true = RenderResult.placeholder ∧
      RouterApp.PublicRoute.render u true = RenderResult.placeholder ∧
      WouterApp.ProtectedRoute.render u true = RenderResult.placeholder ∧
      WouterApp.PublicRoute.render u true = RenderResult.placeholder :=
  fun _ => ⟨rfl, rfl, rfl, rfl⟩

/-- C7: with no session and loading finished, the Route Guard of either
variant redirects to "/login" and does not render the protected content. -/
theorem guard_anonymous_redirects_to_login :
    RouterApp.ProtectedLayout.render none false = RenderResult.redirect "/login" ∧
    RouterApp.ProtectedLayout.render none false ≠ RenderResult.content ∧
    WouterApp.ProtectedRoute.render none false = RenderResult.redirect "/login" ∧
    WouterApp.ProtectedRoute.render none false ≠ RenderResult.content :=
  ⟨rfl, by decide, rfl, by decide⟩

/-- While the baseline cell holds a nonempty role it is never changed by any
further render: the effect only writes the cell while it is JS-falsy. -/
lemma guardRef_stable (b : String) (hb : b ≠ "") :
    ∀ inps : List RenderInput, (guardRun (some b) inps).1 = some b := by
  intro inps
  induction inps with
  | nil => rfl
  | cons inp rest ih =>
    have hstep : (guardStep (some b) inp).1 = some b := by
      rcases inp with ⟨user, deps⟩
      cases deps <;> cases user <;> simp [guardStep, guardEffect, refIsFalsy, hb]
    calc (guardRun (some b) (inp :: rest)).1
        = (guardRun (guardStep (some b) inp).1 rest).1 := rfl
      _ = (guardRun (some b) rest).1 := by rw [hstep]
      _ = some b := ih

/-- C4 counterexample: a guard that first sees a session with the empty-string
role records `""` as baseline, but `""` is JS-falsy, so the very next render
with a session overwrites the baseline — without any remount. -/
theorem guard_baseline_overwritten_on_empty :
    (guardRun none [⟨some ⟨""⟩, true⟩]).1 = some "" ∧
    (guardRun none [⟨some ⟨""⟩, true⟩, ⟨some ⟨"x"⟩, true⟩]).1 = some "x" ∧
    (some "x" : Option String) ≠ some "" :=
  ⟨rfl, rfl, by decide⟩

/-- C4 amended: once the baseline role has been recorded on the first render
with a session present and that role is nonempty, no later render of the same
mounted guard instance overwrites the baseline cell. -/
theorem guard_baseline_never_overwritten (b : String) (hb : b ≠ "")
    (inps : List RenderInput) :
    (guardRun none (⟨some ⟨b⟩, true⟩ :: inps)).1 = some b := by
  have h0 : guardStep none ⟨some ⟨b⟩, true⟩ = (some b, 0) := by
    simp [guardStep, guardEffect, refIsFalsy]
  calc (guardRun none (⟨some ⟨b⟩, true⟩ :: inps)).1
      = (guardRun (guardStep none ⟨some ⟨b⟩, true⟩).1 inps).1 := rfl
    _ = (guardRun (some b) inps).1 := by rw [h0]
    _ = some b := guardRef_stable b hb inps

/-- C4 amended witness: baseline "a" survives a render with role "x". -/
theorem guard_baseline_never_overwritten_witness :
    (guardRun none [⟨some ⟨"a"⟩, true⟩, ⟨some ⟨"x"⟩, true⟩]).1 = some "a" :=
  guard_baseline_never_overwritten "a" (by decide) [⟨some ⟨"x"⟩, true⟩]

/-- C3 counterexample: baseline "a", then the role changes once to "b" and two
further renders observe it, each re-running the effect (a fresh user object
from the auth hook re-triggers the effect even for an unchanged role, since
the dependency array is compared by reference). The guard invokes logout at
both of those renders: twice for a single role change, not exactly once. -/
theorem guard_logout_not_exactly_once :
    (guardRun none [⟨some ⟨"a"⟩, true⟩, ⟨some ⟨"b"⟩, true⟩, ⟨some ⟨"b"⟩, true⟩]).2 = 2 ∧
    (2 : Nat) ≠ 1 :=
  ⟨rfl, by decide⟩

/-- Each effect-running render with session role r differing from the stored
nonempty baseline b leaves the baseline alone and invokes logout once. -/
lemma guardRun_replicate_count (b r : String) (hb : b ≠ "") (hr : r ≠ b) :
    ∀ k : Nat,
      guardRun (some b) (List.replicate k ⟨some ⟨r⟩, true⟩) = (some b, k) := by
  intro k
  induction k with
  | zero => rfl
  | succ n ih =>
    have hs : guardStep (some b) ⟨some ⟨r⟩, true⟩ = (some b, 1) := by
      simp [guardStep, guardEffect, refIsFalsy, hb, Ne.symm hr]
    simp [List.replicate_succ, guardRun, hs, ih, Nat.add_comm]

/-- C3 amended: after the guard records a nonempty baseline b, each
effect-running render whose session role r differs from b invokes logout —
so a role change followed by k such renders produces exactly k logout
invocations (at least one, but one per render, not one per change). -/
theorem guard_logout_fires_per_drifting_render (b r : String) (hb : b ≠ "")
    (hr : r ≠ b) (k : Nat) :
    (guardRun none (⟨some ⟨b⟩, true⟩ :: List.replicate k ⟨some ⟨r⟩, true⟩)).2 = k := by
  have h0 : guardStep none ⟨some ⟨b⟩, true⟩ = (some b, 0) := by
    simp [guardStep, guardEffect, refIsFalsy]
  calc (guardRun none (⟨some ⟨b⟩, true⟩ :: List.replicate k ⟨some ⟨r⟩, true⟩)).2
      = (guardStep none ⟨some ⟨b⟩, true⟩).2 +
        (guardRun (guardStep none ⟨some ⟨b⟩, true⟩).1
          (List.replicate k ⟨some ⟨r⟩, true⟩)).2 := rfl
    _ = k := by rw [h0, guardRun_replicate_count b r hb hr k]; exact Nat.zero_add k

/-- C3 amended witness: baseline "a", two drifting renders with role "b",
two logout invocations. -/
theorem guard_logout_fires_per_drifting_render_witness :
    (guardRun none (⟨some ⟨"a"⟩, true⟩ :: List.replicate 2 ⟨some ⟨"b"⟩, true⟩)).2 = 2 :=
  guard_logout_fires_per_drifting_render "a" "b" (by decide) (by decide) 2

/-- C2: with a file selected, a submit whose injected upload rejects leaves
the settled state with the file intact, the success flag false and the submit
control re-enabled — but the finally block unconditionally schedules the
3000 ms `handleClearFile` timer, after which the selection is cleared with no
user action (the code's own comment says the reset is for success only). -/
theorem uploader_reject_clears_after_delay :
    (FileUploader.handleUpload ⟨some ⟨"doc.pdf"⟩, false, false, false⟩ .reject).settled.file
      = some ⟨"doc.pdf"⟩ ∧
    (FileUploader.handleUpload ⟨some ⟨"doc.pdf"⟩, false, false, false⟩
      .reject).settled.uploadSuccess = false ∧
    FileUploader.buttonDisabled
      (FileUploader.handleUpload ⟨some ⟨"doc.pdf"⟩, false, false, false⟩ .reject).settled
      = false ∧
    (FileUploader.handleUpload ⟨some ⟨"doc.pdf"⟩, false, false, false⟩
      .reject).timerScheduled = true ∧
    (FileUploader.handleUpload ⟨some ⟨"doc.pdf"⟩, false, false, false⟩
      .reject).afterTimer.file = none :=
  ⟨rfl, rfl, rfl, rfl, rfl⟩

/-- C8: a submit through an enabled button invokes the injected upload exactly
once, and while that invocation is awaited the button is disabled (as it also
is while the success flag is set or no file is selected), so a second
invocation cannot start. -/
theorem uploader_submit_guard (s : FileUploader.UploaderState)
    (o : FileUploader.UploadOutcome) :
    (FileUploader.buttonDisabled s = false →
      (FileUploader.handleUpload s o).invocations = 1 ∧
      FileUploader.buttonDisabled (FileUploader.handleUpload s o).during = true) ∧
    (s.isUploading = true → FileUploader.buttonDisabled s = true) ∧
    (s.uploadSuccess = true → FileUploader.buttonDisabled s = true) ∧
    (s.file = none → FileUploader.buttonDisabled s = true) := by
  rcases s with ⟨file, drag, up, succ⟩
  cases file <;> cases up <;> cases succ <;>
    simp [FileUploader.buttonDisabled, FileUploader.handleUpload]

/-- C8 witness: submitting from the enabled idle state with a selected file
invokes the upload once and disables the button while it is pending. -/
theorem uploader_submit_guard_witness :
    (FileUploader.handleUpload ⟨some ⟨"w.csv"⟩, false, false, false⟩ .resolve).invocations
      = 1 ∧
    FileUploader.buttonDisabled
      (FileUploader.handleUpload ⟨some ⟨"w.csv"⟩, false, false, false⟩ .resolve).during
      = true :=
  (uploader_submit_guard ⟨some ⟨"w.csv"⟩, false, false, false⟩ .resolve).1 rfl

/-- C10: calling `handleUpload` with no file selected is a no-op: the injected
upload is never invoked, no clear timer is scheduled, and the widget state is
unchanged throughout. -/
theorem uploader_no_file_noop (s : FileUploader.UploaderState)
    (o : FileUploader.UploadOutcome) (h : s.file = none) :
    (FileUploader.handleUpload s o).invocations = 0 ∧
    (FileUploader.handleUpload s o).during = s ∧
    (FileUploader.handleUpload s o).settled = s ∧
    (FileUploader.handleUpload s o).timerScheduled = false ∧
    (FileUploader.handleUpload s o).afterTimer = s := by
  rcases s with ⟨file, drag, up, succ⟩
  simp only at h
  subst h
  simp [FileUploader.handleUpload]

/-- C10 witness: from the empty idle state, a submit changes nothing. -/
theorem uploader_no_file_noop_witness :
    (FileUploader.handleUpload ⟨none, false, false, false⟩ .reject).invocations = 0 ∧
    (FileUploader.handleUpload ⟨none, false, false, false⟩ .reject).settled
      = (⟨none, false, false, false⟩ : FileUploader.UploaderState) :=
  ⟨(uploader_no_file_noop ⟨none, false, false, false⟩ .reject rfl).1,
   (uploader_no_file_noop ⟨none, false, false, false⟩ .reject rfl).2.2.1⟩
